import Mathlib

/-!
Verification of the walNUT plugin loader (`src/loader.py`) against its
natural-language specification.

The Python source is shallowly embedded:
- Python/JSON values are modelled by `JVal` (dicts as ordered association
  lists with string keys, which is what YAML/JSON parsing yields).
- Python truthiness (`x or y`) is modelled by `truthy` / `pyOr`.
- Fallible code returns `Except`; the distinct Python exception classes that
  the loader raises or catches are modelled by explicit error constructors.
- The filesystem is an oracle structure `FS` (existence, directory test,
  iteration order of `iterdir`), and `sys.path` is threaded explicitly.
- String helpers used by the source (`str.split(":", 1)`,
  `str.replace(".", "_")` with a one-character pattern, `str.startswith`,
  `sep.join`) are modelled by structurally recursive functions on the
  character lists of the strings, so that every definition evaluates by
  kernel reduction.
-/

/-- Model of the Python/JSON values the loader manipulates.  Mappings are
ordered association lists with string keys (the key order of the parsed
document); numbers are integers, which covers every value the loader
inspects. -/
inductive JVal where
  | null
  | bool (b : Bool)
  | num (n : Int)
  | str (s : String)
  | arr (xs : List JVal)
  | obj (fields : List (String × JVal))

/-- Python truthiness of a `JVal`: `None`, `False`, `0`, `""`, `[]` and
an empty dict are falsy, everything else is truthy. -/
def truthy : JVal → Bool
  | .null => false
  | .bool b => b
  | .num n => !(n == 0)
  | .str s => !(s == "")
  | .arr xs => !xs.isEmpty
  | .obj fs => !fs.isEmpty

/-- Model of Python `a or b`: `b` when `a` is falsy, otherwise `a`. -/
def pyOr (a b : JVal) : JVal := if truthy a then a else b

/-- Lookup in a Python dict (first matching key), `dict.get(k)`. -/
def jGet (fields : List (String × JVal)) (k : String) : Option JVal :=
  (fields.find? (fun kv => kv.1 == k)).map Prod.snd

/-- `dict.get(k, dflt)`. -/
def jGetD (fields : List (String × JVal)) (k : String) (dflt : JVal) : JVal :=
  (jGet fields k).getD dflt

/-- `k in dict`. -/
def hasKey (fields : List (String × JVal)) (k : String) : Bool :=
  (jGet fields k).isSome

/-- Model of Python `sep.join(parts)`. -/
def joinSep (sep : String) : List String → String
  | [] => ""
  | [x] => x
  | x :: xs => x ++ sep ++ joinSep sep xs

/-- Model of Python `s.startswith(pre)`. -/
def strStartsWith (s pre : String) : Bool :=
  pre.toList.isPrefixOf s.toList

/-- Split a character list at the first occurrence of `sep`;
`none` when `sep` does not occur. -/
def splitFirstChar (sep : Char) : List Char → Option (List Char × List Char)
  | [] => none
  | c :: cs =>
    if c = sep then some ([], cs)
    else
      match splitFirstChar sep cs with
      | none => none
      | some pr => some (c :: pr.1, pr.2)

/-- Model of Python `s.replace(".", "_")`: with a one-character pattern,
`str.replace` substitutes every occurrence of that character. -/
def replaceDotUnderscore : List Char → List Char
  | [] => []
  | c :: cs => (if c = '.' then '_' else c) :: replaceDotUnderscore cs

/-- `cap_method` of the source (loader.py line 306) and the expression
`cap_id.replace(".", "_")` at line 154: dot segments joined by underscores. -/
def cap_method (s : String) : String := ⟨replaceDotUnderscore s.toList⟩

mutual

/-- Python repr of a parsed JSON/YAML value, used inside the messages the
jsonschema library produces (string-escaping corner cases are not needed by
any manifest the theorems touch). -/
def pyRepr : JVal → String
  | .null => "None"
  | .bool true => "True"
  | .bool false => "False"
  | .num n => toString n
  | .str s => "'" ++ s ++ "'"
  | .arr xs => "[" ++ joinSep ", " (pyReprList xs) ++ "]"
  | .obj fs => "\x7b" ++ joinSep ", " (pyReprFields fs) ++ "\x7d"

def pyReprList : List JVal → List String
  | [] => []
  | x :: xs => pyRepr x :: pyReprList xs

def pyReprFields : List (String × JVal) → List String
  | [] => []
  | (k, v) :: fs => ("'" ++ k ++ "': " ++ pyRepr v) :: pyReprFields fs

end

/-- The Python exceptions (other than the loader's own `RuntimeError`s)
that the embedded fragments can raise. -/
inductive PyErr where
  | notADirectoryError
  | attributeError
deriving DecidableEq

/-!
Manifest schema validation (`PLUGIN_MANIFEST_SCHEMA`, loader.py lines 22-93,
and `validate_plugin_manifest`, lines 118-145).

`validate_plugin_manifest` delegates to the external `jsonschema` library
(`Draft202012Validator(PLUGIN_MANIFEST_SCHEMA).iter_errors`).  The library is
not part of this repository, so its behaviour on this one fixed schema is
modelled here keyword by keyword, following JSON Schema Draft 2020-12
semantics as the library implements them:
- keywords are checked independently, in the key order of the schema
  document (`type`, `required`, `additionalProperties`, `properties`);
- `required`, `additionalProperties` and `properties` apply only to objects,
  `minLength`/`maxLength`/`pattern` only to strings, `minItems`/`items` only
  to arrays; a violated `type` keyword does not suppress the others;
- a missing required property yields one error per missing name, attached to
  the object itself (empty instance path) with message
  `'<name>' is a required property`;
- errors produced under `properties`/`items` have the property name or the
  item index prepended to their instance path;
- regular-expression matching (`pattern`) is not re-implemented: it is a
  parameter `mp : String → String → Bool` (pattern, candidate) of the model,
  standing for Python `re.search`.  No theorem depends on its behaviour.
Exact message wording for keywords other than `required` differs slightly
across library versions; no theorem depends on those messages.
-/

/-- One entry of `iter_errors`: instance path (indices stringified),
message, offending sub-instance. -/
structure SchemaError where
  path : List String
  message : String
  value : JVal

/-- The eight required top-level manifest fields (loader.py line 25). -/
def REQUIRED_FIELDS : List String :=
  ["id", "name", "version", "min_core_version", "category", "schema",
   "capabilities", "driver"]

/-- The declared top-level properties, in schema key order
(loader.py lines 27-92). -/
def PROPERTY_NAMES : List String :=
  ["id", "name", "version", "min_core_version", "category", "driver",
   "schema", "capabilities"]

def ID_PATTERN : String := "^[a-z][a-z0-9]*(?:\\.[a-z][a-z0-9]*)*$"

def SEMVER_PATTERN : String :=
  "^(0|[1-9]\\d*)\\.(0|[1-9]\\d*)\\.(0|[1-9]\\d*)(?:-((?:0|[1-9]\\d*|\\d*[a-zA-Z-][0-9a-zA-Z-]*)(?:\\.(?:0|[1-9]\\d*|\\d*[a-zA-Z-][0-9a-zA-Z-]*))*))?(?:\\+([0-9a-zA-Z-]+(?:\\.[0-9a-zA-Z-]+)*))?$"

def CATEGORIES : List String :=
  ["host-orchestrator", "ups-management", "power-control", "network-device",
   "smart-home", "monitoring", "notification", "storage", "compute"]

def ENTRYPOINT_PATTERN : String := "^[a-zA-Z_][a-zA-Z0-9_]*:[a-zA-Z_][a-zA-Z0-9_]*$"

def CAP_ID_PATTERN : String := "^[a-z][a-z0-9_]*(?:\\.[a-z][a-z0-9_]*)*$"

def VERB_PATTERN : String := "^[a-z][a-z0-9_]*$"

/-- JSON Schema `type` test for the type names this schema uses. -/
def isType : JVal → String → Bool
  | .obj _, "object" => true
  | .arr _, "array" => true
  | .str _, "string" => true
  | _, _ => false

def typeErrors (t : String) (v : JVal) : List SchemaError :=
  if isType v t then []
  else [⟨[], pyRepr v ++ " is not of type '" ++ t ++ "'", v⟩]

def patternErrors (mp : String → String → Bool) (pat : String) (v : JVal) :
    List SchemaError :=
  match v with
  | .str s =>
    if mp pat s then [] else [⟨[], pyRepr v ++ " does not match '" ++ pat ++ "'", v⟩]
  | _ => []

/-- `required`: applies only to objects, one error per missing property,
attached at the object's own path. -/
def requiredErrorsFor (reqs : List String) (v : JVal) : List SchemaError :=
  match v with
  | .obj fields =>
    reqs.filterMap (fun k =>
      if hasKey fields k then none
      else some ⟨[], "'" ++ k ++ "' is a required property", v⟩)
  | _ => []

def minLengthErrors (n : Nat) (v : JVal) : List SchemaError :=
  match v with
  | .str s => if s.length < n then [⟨[], pyRepr v ++ " is too short", v⟩] else []
  | _ => []

def maxLengthErrors (n : Nat) (v : JVal) : List SchemaError :=
  match v with
  | .str s => if n < s.length then [⟨[], pyRepr v ++ " is too long", v⟩] else []
  | _ => []

def minItemsErrors (n : Nat) (v : JVal) : List SchemaError :=
  match v with
  | .arr xs => if xs.length < n then [⟨[], pyRepr v ++ " is too short", v⟩] else []
  | _ => []

/-- `enum` over a list of string alternatives (the only enum in this schema);
a non-string instance equals none of them. -/
def enumErrors (options : List String) (v : JVal) : List SchemaError :=
  let msg := fun (x : JVal) => pyRepr x ++ " is not one of [" ++
    joinSep ", " (options.map (fun c => "'" ++ c ++ "'")) ++ "]"
  match v with
  | .str s => if options.contains s then [] else [⟨[], msg (.str s), .str s⟩]
  | x => [⟨[], msg x, x⟩]

/-- Prepend a path segment to every error of a subschema check. -/
def prefixPath (k : String) (es : List SchemaError) : List SchemaError :=
  es.map (fun e => ⟨k :: e.path, e.message, e.value⟩)

/-- Errors of the subschema for property `k`, when `k` is present. -/
def subAt (fields : List (String × JVal)) (k : String)
    (f : JVal → List SchemaError) : List SchemaError :=
  match jGet fields k with
  | some v => prefixPath k (f v)
  | none => []

def idSchemaErrors (mp : String → String → Bool) (v : JVal) : List SchemaError :=
  typeErrors "string" v ++ patternErrors mp ID_PATTERN v

def nameSchemaErrors (v : JVal) : List SchemaError :=
  typeErrors "string" v ++ minLengthErrors 1 v ++ maxLengthErrors 100 v

def semverSchemaErrors (mp : String → String → Bool) (v : JVal) : List SchemaError :=
  typeErrors "string" v ++ patternErrors mp SEMVER_PATTERN v

def categorySchemaErrors (v : JVal) : List SchemaError :=
  typeErrors "string" v ++ enumErrors CATEGORIES v

def driverSchemaErrors (mp : String → String → Bool) (v : JVal) : List SchemaError :=
  typeErrors "object" v ++ requiredErrorsFor ["entrypoint"] v ++
    (match v with
     | .obj dfields =>
       subAt dfields "entrypoint"
         (fun ev => typeErrors "string" ev ++ patternErrors mp ENTRYPOINT_PATTERN ev)
     | _ => [])

def schemaFieldErrors (v : JVal) : List SchemaError :=
  typeErrors "object" v ++ requiredErrorsFor ["connection"] v ++
    (match v with
     | .obj sfields => subAt sfields "connection" (typeErrors "object")
     | _ => [])

def capVerbListElemErrors (mp : String → String → Bool) (i : Nat) :
    List JVal → List SchemaError
  | [] => []
  | x :: xs =>
    prefixPath (toString i) (typeErrors "string" x ++ patternErrors mp VERB_PATTERN x)
      ++ capVerbListElemErrors mp (i + 1) xs

def capVerbListErrors (mp : String → String → Bool) (v : JVal) : List SchemaError :=
  typeErrors "array" v ++ minItemsErrors 1 v ++
    (match v with
     | .arr xs => capVerbListElemErrors mp 0 xs
     | _ => [])

def capItemErrors (mp : String → String → Bool) (v : JVal) : List SchemaError :=
  typeErrors "object" v ++ requiredErrorsFor ["id", "verbs", "targets"] v ++
    (match v with
     | .obj cfields =>
       subAt cfields "id"
           (fun x => typeErrors "string" x ++ patternErrors mp CAP_ID_PATTERN x)
         ++ subAt cfields "verbs" (capVerbListErrors mp)
         ++ subAt cfields "targets" (capVerbListErrors mp)
     | _ => [])

def capItemsElemErrors (mp : String → String → Bool) (i : Nat) :
    List JVal → List SchemaError
  | [] => []
  | x :: xs => prefixPath (toString i) (capItemErrors mp x)
      ++ capItemsElemErrors mp (i + 1) xs

def capabilitiesSchemaErrors (mp : String → String → Bool) (v : JVal) :
    List SchemaError :=
  typeErrors "array" v ++ minItemsErrors 1 v ++
    (match v with
     | .arr xs => capItemsElemErrors mp 0 xs
     | _ => [])

/-- `additionalProperties: false` at top level: a single error listing
the unexpected keys, attached to the object itself. -/
def addlPropsErrors (v : JVal) : List SchemaError :=
  match v with
  | .obj fields =>
    let extras := (fields.map Prod.fst).filter (fun k => !(PROPERTY_NAMES.contains k))
    if extras.isEmpty then []
    else
      [⟨[], "Additional properties are not allowed (" ++
          joinSep ", " (extras.map (fun k => "'" ++ k ++ "'")) ++
          (if extras.length = 1 then " was unexpected)" else " were unexpected)"),
        v⟩]
  | _ => []

/-- The checks of the top-level `properties` keyword, in schema key order;
only properties present in the instance are checked. -/
def propertiesErrors (mp : String → String → Bool) (v : JVal) : List SchemaError :=
  match v with
  | .obj fields =>
    subAt fields "id" (idSchemaErrors mp)
      ++ subAt fields "name" nameSchemaErrors
      ++ subAt fields "version" (semverSchemaErrors mp)
      ++ subAt fields "min_core_version" (semverSchemaErrors mp)
      ++ subAt fields "category" categorySchemaErrors
      ++ subAt fields "driver" (driverSchemaErrors mp)
      ++ subAt fields "schema" schemaFieldErrors
      ++ subAt fields "capabilities" (capabilitiesSchemaErrors mp)
  | _ => []

/-- Model of `Draft202012Validator(PLUGIN_MANIFEST_SCHEMA).iter_errors(v)`
(loader.py lines 122-123). -/
def iter_errors (mp : String → String → Bool) (v : JVal) : List SchemaError :=
  typeErrors "object" v
    ++ requiredErrorsFor REQUIRED_FIELDS v
    ++ addlPropsErrors v
    ++ propertiesErrors mp v

/-- An error as `validate_plugin_manifest` formats it: dot-joined path,
message, offending value (loader.py lines 128-132). -/
structure FormattedError where
  path : String
  message : String
  value : JVal

/-- Result shape of `validate_plugin_manifest`. -/
structure ValidationResult where
  valid : Bool
  errors : List FormattedError

/-- `validate_plugin_manifest` (loader.py lines 118-145).  Whether the
`jsonschema` import succeeds is an input of the model
(`jsonschemaAvailable`); the `ImportError` branch is lines 137-145. -/
def validate_plugin_manifest (jsonschemaAvailable : Bool)
    (mp : String → String → Bool) (manifest_data : JVal) : ValidationResult :=
  if jsonschemaAvailable then
    let errors := iter_errors mp manifest_data
    if errors.isEmpty then ⟨true, []⟩
    else ⟨false, errors.map (fun e => ⟨joinSep "." e.path, e.message, e.value⟩)⟩
  else
    ⟨false,
     [⟨"", "Schema validation unavailable. Install 'jsonschema' to enable manifest checks.",
       JVal.null⟩]⟩

/-- A stand-in for the regex oracle in closed evaluations where no pattern
check is ever reached. -/
def mpAny : String → String → Bool := fun _ _ => true

/-!
Capability conformance validation (`validate_capability_conformance`,
loader.py lines 148-162).  The capability list is a parsed document
fragment, so its elements are arbitrary `JVal`s; `cap.get("id", "")` on a
non-dict element, or `.replace` on a non-string id, raises
`AttributeError`, which the embedding surfaces as `Except.error`.
`driver_methods` is a set of names, used only through membership.
-/

/-- Result shape of `validate_capability_conformance`. -/
structure ConformanceResult where
  conformant : Bool
  errors : List String

/-- The error-collecting loop of `validate_capability_conformance`
(loader.py lines 152-157), in iteration order. -/
def conformanceErrors (caps : List JVal) (driver_methods : List String) :
    Except PyErr (List String) :=
  match caps with
  | [] => .ok []
  | cap :: rest =>
    match cap with
    | .obj cfields =>
      match jGetD cfields "id" (.str "") with
      | .str cap_id =>
        let method_name := cap_method cap_id
        match conformanceErrors rest driver_methods with
        | .error e => .error e
        | .ok tail =>
          if driver_methods.contains method_name then .ok tail
          else .ok (("Driver missing method '" ++ method_name ++
                     "' for capability '" ++ cap_id ++ "'") :: tail)
      | _ => .error .attributeError
    | _ => .error .attributeError

/-- `validate_capability_conformance` (loader.py lines 148-162):
`conformant` is `len(errors) == 0`. -/
def validate_capability_conformance (caps : List JVal)
    (driver_methods : List String) : Except PyErr ConformanceResult :=
  match conformanceErrors caps driver_methods with
  | .error e => .error e
  | .ok errs => .ok ⟨errs.length == 0, errs⟩

/-- A capability-list element on which the source runs without raising:
a dict whose `id` value (defaulting to `""`) is a string. -/
def capOk : JVal → Bool
  | .obj cfields =>
    match jGetD cfields "id" (.str "") with
    | .str _ => true
    | _ => false
  | _ => false

/-- The capability id the source reads from an element (`cap.get("id", "")`). -/
def capIdOf : JVal → String
  | .obj cfields =>
    match jGetD cfields "id" (.str "") with
    | .str s => s
    | _ => ""
  | _ => ""

/-- The error message emitted for a capability whose method is missing
(loader.py line 157). -/
def missingMethodMsg (c : JVal) : String :=
  "Driver missing method '" ++ cap_method (capIdOf c) ++
    "' for capability '" ++ capIdOf c ++ "'"

/-!
Dependency path resolution (`_candidate_site_packages`, loader.py lines
190-220, and `get_plugin_site_packages`, lines 222-242).

Filesystem paths are lists of name segments relative to a common root; the
filesystem itself is an oracle `FS` giving existence, the directory test,
and the order in which `Path.iterdir` enumerates a directory's entries.
`Path.iterdir` on an existing non-directory raises `NotADirectoryError`
(the code guards it only with `exists()`), so the resolvers return
`Except`.  De-duplication in the source keys on `str(p)`, modelled by
joining segments with `/`.
-/

/-- Filesystem oracle. -/
structure FS where
  pathExists : List String → Bool
  isDir : List String → Bool
  children : List String → List String

/-- `str(p)` of a path. -/
def pathStr (p : List String) : String := joinSep "/" p

/-- `Path.iterdir()`, called on an existing path: raises
`NotADirectoryError` unless the path is a directory. -/
def iterdir (fs : FS) (p : List String) : Except PyErr (List String) :=
  if fs.isDir p then .ok (fs.children p) else .error .notADirectoryError

/-- The body of the `for child in ...iterdir()` loops (loader.py lines
196-200 and 204-208): children that are directories named `python*` and
contain an existing `site-packages` entry. -/
def pythonSPCands (fs : FS) (base : List String) (names : List String) :
    List (List String) :=
  names.filterMap (fun n =>
    if fs.isDir (base ++ [n]) && strStartsWith n "python" &&
        fs.pathExists (base ++ [n, "site-packages"])
    then some (base ++ [n, "site-packages"]) else none)

/-- The de-duplication loops of loader.py lines 213-220 and 235-242:
drop a path whose `str` was already seen, keeping first-seen order. -/
def dedupLoop (seen : List String) : List (List String) → List (List String)
  | [] => []
  | p :: rest =>
    if pathStr p ∈ seen then dedupLoop seen rest
    else p :: dedupLoop (pathStr p :: seen) rest

/-- `_candidate_site_packages` (loader.py lines 190-220).  Note that the
`lib64` block is nested inside the `lib_dir.exists()` branch. -/
def _candidate_site_packages (fs : FS) (venv_dir : List String) :
    Except PyErr (List (List String)) :=
  let posixPart : Except PyErr (List (List String)) :=
    if fs.pathExists (venv_dir ++ ["lib"]) then
      match iterdir fs (venv_dir ++ ["lib"]) with
      | .error e => .error e
      | .ok names =>
        let fromLib := pythonSPCands fs (venv_dir ++ ["lib"]) names
        if fs.pathExists (venv_dir ++ ["lib64"]) then
          match iterdir fs (venv_dir ++ ["lib64"]) with
          | .error e => .error e
          | .ok names64 => .ok (fromLib ++ pythonSPCands fs (venv_dir ++ ["lib64"]) names64)
        else .ok fromLib
    else .ok []
  match posixPart with
  | .error e => .error e
  | .ok paths =>
    let paths2 :=
      if fs.pathExists (venv_dir ++ ["Lib", "site-packages"]) then
        paths ++ [venv_dir ++ ["Lib", "site-packages"]]
      else paths
    .ok (dedupLoop [] paths2)

/-- `get_plugin_site_packages` (loader.py lines 222-242). -/
def get_plugin_site_packages (fs : FS) (plugin_dir : List String) :
    Except PyErr (List (List String)) :=
  let fromVenv : Except PyErr (List (List String)) :=
    if fs.pathExists (plugin_dir ++ [".venv"]) && fs.isDir (plugin_dir ++ [".venv"]) then
      _candidate_site_packages fs (plugin_dir ++ [".venv"])
    else .ok []
  match fromVenv with
  | .error e => .error e
  | .ok paths =>
    let p1 :=
      if fs.pathExists (plugin_dir ++ ["_vendor"]) && fs.isDir (plugin_dir ++ ["_vendor"]) then
        paths ++ [plugin_dir ++ ["_vendor"]]
      else paths
    let p2 :=
      if fs.pathExists (plugin_dir ++ ["vendor"]) && fs.isDir (plugin_dir ++ ["vendor"]) then
        p1 ++ [plugin_dir ++ ["vendor"]]
      else p1
    .ok (dedupLoop [] p2)

/-!
The `PluginImportPath` context manager (loader.py lines 244-265).
`__enter__` inserts, at the front of `sys.path` and in reversed order so that
the original order is kept, every resolved path not already present, and
records exactly the inserted entries; `__exit__` removes the first occurrence
of each recorded entry.  The loops are modelled over an arbitrary `to_add`
list (whatever `get_plugin_site_packages` produced).
-/

/-- The `__enter__` loop (loader.py lines 251-255): `sysPath` and the
`removed` record evolve together; `ps` is `reversed(to_add)`. -/
def enterLoop (sysPath : List String) (ps : List String) (removed : List String) :
    List String × List String :=
  match ps with
  | [] => (sysPath, removed)
  | p :: rest =>
    if p ∈ sysPath then enterLoop sysPath rest removed
    else enterLoop (p :: sysPath) rest (removed ++ [p])

/-- `PluginImportPath.__enter__` applied to an already-computed `to_add`
list: returns the new `sys.path` and the recorded additions. -/
def pluginImportPathEnter (sysPath to_add : List String) :
    List String × List String :=
  enterLoop sysPath to_add.reverse []

/-- `list.remove(p)`: drop the first occurrence. -/
def removeFirst : List String → String → List String
  | [], _ => []
  | x :: xs, p => if x = p then xs else x :: removeFirst xs p

/-- `PluginImportPath.__exit__` (loader.py lines 258-265): for each recorded
entry still present, remove its first occurrence. -/
def pluginImportPathExit (sysPath : List String) : List String → List String
  | [] => sysPath
  | p :: rest =>
    pluginImportPathExit (if p ∈ sysPath then removeFirst sysPath p else sysPath) rest

/-!
Driver loading (`load_manifest`, loader.py lines 268-273, and
`load_driver`, lines 275-294).

`load_driver` line 281 reads `with PluginVenvPath(here):`.  The name
`PluginVenvPath` is defined nowhere in the program (the context manager
defined at lines 244-265 is called `PluginImportPath`), so evaluating the
`with` header raises `NameError: name 'PluginVenvPath' is not defined`.
Every statement after line 281 — module execution, class lookup, driver
construction — is therefore unreachable, and `load_driver` can never
return; the embedding makes that error path explicit.  In particular the
`sys.path` list is never touched by `load_driver` as written: the `NameError`
is raised while evaluating the context expression, before any `__enter__`
could run.
-/

/-- The exceptions `load_driver` can raise as written. -/
inductive LoadErr where
  /-- `RuntimeError("plugin.yaml not found")` (line 270). -/
  | manifestMissing
  /-- An exception propagating out of `_load_yaml_or_json` (unparsable file). -/
  | manifestParseError
  /-- `RuntimeError("plugin.yaml invalid")` (line 272): parsed but not a dict. -/
  | manifestInvalid
  /-- `AttributeError` from `.get`/`.split` on a wrongly-typed manifest value. -/
  | attributeError
  /-- `ValueError` from unpacking `entry.split(":", 1)` into two names
  when the entrypoint contains no colon (line 278). -/
  | entrypointUnpackError
  /-- `RuntimeError(f"Driver file missing: ...")` (line 280). -/
  | driverFileMissing (fname : String)
  /-- `NameError`: the given global name is not defined (line 281). -/
  | nameError (missing : String)
deriving DecidableEq

/-- The plugin directory as `load_driver` observes it: the manifest file's
presence and parse outcome, and which files exist in the directory. -/
structure PluginEnv where
  manifestPresent : Bool
  manifestParse : Except Unit JVal
  fileExists : String → Bool

/-- `load_manifest` (loader.py lines 268-273). -/
def load_manifest (env : PluginEnv) : Except LoadErr (List (String × JVal)) :=
  if !env.manifestPresent then .error .manifestMissing
  else
    match env.manifestParse with
    | .error _ => .error .manifestParseError
    | .ok (.obj fields) => .ok fields
    | .ok _ => .error .manifestInvalid

/-- Line 278 of `load_driver`: `mod_name, cls_name = entry.split(":", 1)`.
The two-name unpacking raises `ValueError` only when the split yields a
single part, i.e. when the entry contains no colon; otherwise the string is
split at its first colon.  A non-string entry value would have raised
`AttributeError` at `.split`. -/
def entrySplit (entryVal : JVal) : Except LoadErr (String × String) :=
  match entryVal with
  | .str entry =>
    match splitFirstChar ':' entry.toList with
    | none => .error .entrypointUnpackError
    | some pr => .ok (⟨pr.1⟩, ⟨pr.2⟩)
  | _ => .error .attributeError

/-- The `.get("entrypoint") or "driver:Driver"` part of line 277, applied
to the (truthiness-defaulted) `driver` value: `.get` on a non-dict raises
`AttributeError`; a missing or falsy entrypoint value falls back to the
default `driver:Driver`. -/
def entryOfDriverVal (dval : JVal) : Except LoadErr (String × String) :=
  match dval with
  | .obj dfields =>
    entrySplit (pyOr (jGetD dfields "entrypoint" .null) (.str "driver:Driver"))
  | _ => .error .attributeError

/-- Lines 277-278 of `load_driver`:
`entry = (m.get("driver") or \x7b\x7d).get("entrypoint") or "driver:Driver"`
followed by the two-name unpacking of `entry.split(":", 1)`. -/
def resolve_entrypoint (m : List (String × JVal)) : Except LoadErr (String × String) :=
  entryOfDriverVal (pyOr (jGetD m "driver" .null) (.obj []))

/-- `load_driver` (loader.py lines 275-294), threading `sys.path`
explicitly.  After the driver-file existence check of line 280, line 281
evaluates the undefined global `PluginVenvPath` and raises `NameError`, so
no success value is ever produced and `sys.path` is returned unchanged. -/
def load_driver (env : PluginEnv) (_config _secrets : List (String × JVal))
    (sysPath : List String) : List String × Except LoadErr Unit :=
  (sysPath,
    match load_manifest env with
    | .error e => .error e
    | .ok m =>
      match resolve_entrypoint m with
      | .error e => .error e
      | .ok pr =>
        let fname := pr.1 ++ ".py"
        if env.fileExists fname then .error (.nameError "PluginVenvPath")
        else .error (.driverFileMissing fname))

/-- `Except` success test. -/
def exceptIsOk {ε α : Type} : Except ε α → Bool
  | .ok _ => true
  | .error _ => false

/-!
The invocation adapter: the signature-tolerance loop of `do_action`
(loader.py lines 495-510).  The resolved driver method is abstracted as a
function from the attempted calling convention to what that call does:
return a value, raise `TypeError` (the only exception the loop retries on),
or raise some other exception.
-/

/-- The four calling conventions, in the order of the `attempts` list
(loader.py lines 495-500). -/
inductive Attempt where
  /-- `fn(verb=verb, target=target, options=options, dry_run=dry)` -/
  | kwAll
  /-- `fn(verb, target, options, dry)` -/
  | posAll
  /-- `fn(verb=verb, target=target, dry_run=dry)` -/
  | kwNoOptions
  /-- `fn(verb, target, dry)` -/
  | posNoOptions
deriving DecidableEq

/-- Outcome of one candidate call of the driver method. -/
inductive CallResult where
  | ret (v : JVal)
  | typeError (msg : String)
  | raised (msg : String)

/-- Observable outcome of the attempts loop: print the (normalized) result
and return; print `Action error: ...` and return; or fall through to
`Could not call with standard signatures: ...` with the last `TypeError`. -/
inductive ActionOutcome where
  | printed (v : JVal)
  | actionError (msg : String)
  | unsupported (lastTypeError : Option String)

/-- `\x7b"success": True\x7d`, the replacement for a falsy call result
(loader.py line 504). -/
def successResult : JVal := .obj [("success", .bool true)]

/-- The attempt order of loader.py lines 495-500. -/
def attemptOrder : List Attempt := [.kwAll, .posAll, .kwNoOptions, .posNoOptions]

/-- The `for call in attempts` loop (loader.py lines 501-510), carrying the
last `TypeError` seen in `err`. -/
def runAttempts (fn : Attempt → CallResult) :
    List Attempt → Option String → ActionOutcome
  | [], err => .unsupported err
  | a :: rest, err =>
    match fn a with
    | .ret v => .printed (pyOr v successResult)
    | .typeError m => runAttempts fn rest (some m)
    | .raised m => .actionError m

/-- The whole signature-tolerance phase of `do_action`. -/
def do_action_attempts (fn : Attempt → CallResult) : ActionOutcome :=
  runAttempts fn attemptOrder none

/-!
Concrete environments used by the closed evaluations below.
-/

/-- A plugin directory with a healthy `.venv` (one `python3.11`
site-packages under `lib`) and also a `_vendor` directory. -/
def fsVenvAndVendor : FS :=
  { pathExists := fun p => decide (p ∈
      [["p", ".venv"], ["p", ".venv", "lib"], ["p", ".venv", "lib", "python3.11"],
       ["p", ".venv", "lib", "python3.11", "site-packages"], ["p", "_vendor"]]),
    isDir := fun p => decide (p ∈
      [["p", ".venv"], ["p", ".venv", "lib"], ["p", ".venv", "lib", "python3.11"],
       ["p", "_vendor"]]),
    children := fun p =>
      if p = ["p", ".venv", "lib"] then ["python3.11"] else [] }

/-- A plugin directory whose `.venv/lib` exists but is a regular file, so
`iterdir` raises `NotADirectoryError`. -/
def fsLibIsFile : FS :=
  { pathExists := fun p => decide (p ∈ [["p", ".venv"], ["p", ".venv", "lib"]]),
    isDir := fun p => decide (p = ["p", ".venv"]),
    children := fun _ => [] }

/-- `fsVenvAndVendor` with extra content outside the plugin directory
`["p"]` (used to instantiate determinism under equal directory contents). -/
def fsVenvAndVendorNoise : FS :=
  { pathExists := fun p =>
      if p = ["q", "extra"] then true else fsVenvAndVendor.pathExists p,
    isDir := fsVenvAndVendor.isDir,
    children := fsVenvAndVendor.children }

/-- A plugin directory satisfying every precondition of a driver load: a
manifest that parses to a dict with entrypoint `driver:Driver`, and an
existing `driver.py`. -/
def goodEnv : PluginEnv :=
  { manifestPresent := true,
    manifestParse := .ok (.obj
      [("id", .str "test.plugin"),
       ("driver", .obj [("entrypoint", .str "driver:Driver")])]),
    fileExists := fun n => n == "driver.py" }

/-- A plugin directory whose manifest declares the entrypoint `a:b:c`
(more than one colon) and which contains no `a.py`. -/
def multiColonEnv : PluginEnv :=
  { manifestPresent := true,
    manifestParse := .ok (.obj [("driver", .obj [("entrypoint", .str "a:b:c")])]),
    fileExists := fun _ => false }

/-- A driver method raising `TypeError`, with a distinct message, under all
four conventions. -/
def allTypeErrorFn : Attempt → CallResult
  | .kwAll => .typeError "e1"
  | .posAll => .typeError "e2"
  | .kwNoOptions => .typeError "e3"
  | .posNoOptions => .typeError "e4"

/-- A driver method returning the empty dict under every convention. -/
def emptyDictFn : Attempt → CallResult := fun _ => .ret (.obj [])

/-- A capability declaration with the dotted id `a.b`. -/
def capAB : JVal := .obj [("id", .str "a.b")]

/-- Spec-side definition for the amended C2: the site-packages candidates
contributed by the isolated environment, exactly when `.venv` exists and is
a directory — from `lib` when it exists, then from `lib64` (which the source
examines only when `lib` exists), then the Windows-style `Lib/site-packages`. -/
def venv_candidates_spec (fs : FS) (d : List String) : List (List String) :=
  if fs.pathExists (d ++ [".venv"]) && fs.isDir (d ++ [".venv"]) then
    (if fs.pathExists (d ++ [".venv"] ++ ["lib"]) then
      pythonSPCands fs (d ++ [".venv"] ++ ["lib"])
          (fs.children (d ++ [".venv"] ++ ["lib"])) ++
        (if fs.pathExists (d ++ [".venv"] ++ ["lib64"]) then
          pythonSPCands fs (d ++ [".venv"] ++ ["lib64"])
            (fs.children (d ++ [".venv"] ++ ["lib64"]))
        else [])
    else []) ++
    (if fs.pathExists (d ++ [".venv"] ++ ["Lib", "site-packages"]) then
      [d ++ [".venv"] ++ ["Lib", "site-packages"]]
    else [])
  else []

/-- Spec-side definition for the amended C2: the vendor directories,
`_vendor` then `vendor`, each contributed whenever it exists and is a
directory — regardless of whether a `.venv` exists. -/
def vendor_dirs_spec (fs : FS) (d : List String) : List (List String) :=
  (if fs.pathExists (d ++ ["_vendor"]) && fs.isDir (d ++ ["_vendor"]) then
    [d ++ ["_vendor"]]
  else []) ++
  (if fs.pathExists (d ++ ["vendor"]) && fs.isDir (d ++ ["vendor"]) then
    [d ++ ["vendor"]]
  else [])

/-- Two filesystem states agree on everything under (and including) the
directory `d`: same existence, directory test and iteration order for every
path extending `d`.  This is what "the plugin directory's contents are
unchanged between the two calls" observes. -/
def fsAgreeUnder (d : List String) (fs1 fs2 : FS) : Prop :=
  ∀ p : List String, d <+: p →
    fs1.pathExists p = fs2.pathExists p ∧ fs1.isDir p = fs2.isDir p ∧
      fs1.children p = fs2.children p

/-!
Lemmas about the `PluginImportPath` loops: running `__exit__` on the record
produced by `__enter__` restores `sys.path` exactly, for any resolved path
list (duplicates and already-present entries included).
-/

theorem pluginImportPathExit_append (l1 l2 : List String) :
    ∀ sp, pluginImportPathExit sp (l1 ++ l2) =
      pluginImportPathExit (pluginImportPathExit sp l1) l2 := by
  induction l1 with
  | nil => intro sp; rfl
  | cons p rest ih =>
    intro sp
    simp only [List.cons_append, pluginImportPathExit]
    exact ih _

theorem pluginImportPathExit_cons_of_not_mem (p : String) (rem : List String)
    (h : p ∉ rem) :
    ∀ sp, pluginImportPathExit (p :: sp) rem = p :: pluginImportPathExit sp rem := by
  induction rem with
  | nil => intro sp; rfl
  | cons r rest ih =>
    intro sp
    have hrp : r ≠ p := by
      intro he
      exact h (he ▸ List.mem_cons_self r rest)
    have hrest : p ∉ rest := fun hm => h (List.mem_cons_of_mem r hm)
    by_cases hr : r ∈ sp
    · have hmem : r ∈ p :: sp := List.mem_cons_of_mem p hr
      have hrm : removeFirst (p :: sp) r = p :: removeFirst sp r := by
        simp [removeFirst, hrp.symm]
      simp only [pluginImportPathExit, if_pos hmem, if_pos hr, hrm]
      exact ih hrest _
    · have hmem : r ∉ p :: sp := by
        intro hc
        rcases List.mem_cons.mp hc with hc1 | hc2
        · exact hrp hc1
        · exact hr hc2
      simp only [pluginImportPathExit, if_neg hmem, if_neg hr]
      exact ih hrest _

theorem enterLoop_exit_restores (ps : List String) :
    ∀ sp acc, (∀ a ∈ acc, a ∈ sp) →
      pluginImportPathExit (enterLoop sp ps acc).1 (enterLoop sp ps acc).2 =
        pluginImportPathExit sp acc := by
  induction ps with
  | nil => intro sp acc _; rfl
  | cons p rest ih =>
    intro sp acc hacc
    by_cases hp : p ∈ sp
    · simp only [enterLoop, if_pos hp]
      exact ih sp acc hacc
    · simp only [enterLoop, if_neg hp]
      have hacc' : ∀ a ∈ acc ++ [p], a ∈ p :: sp := by
        intro a ha
        rcases List.mem_append.mp ha with h1 | h2
        · exact List.mem_cons_of_mem p (hacc a h1)
        · rcases List.mem_singleton.mp h2 with rfl
          exact List.mem_cons_self a sp
      rw [ih (p :: sp) (acc ++ [p]) hacc']
      have hpacc : p ∉ acc := fun hm => hp (hacc p hm)
      rw [pluginImportPathExit_append acc [p],
          pluginImportPathExit_cons_of_not_mem p acc hpacc]
      have hsel : p ∈ p :: pluginImportPathExit sp acc :=
        List.mem_cons_self p _
      simp [pluginImportPathExit, removeFirst, if_pos hsel]

/-- Claim C5: after `load_driver` completes — normally or with an exception
at any step — `sys.path` holds exactly the entries it held before, in the
same order.  First conjunct: `load_driver` as written returns `sys.path`
unchanged on every input (as written it raises `NameError` before the
context manager ever runs, see C1, so the search path is never even
touched).  Second conjunct: the `PluginImportPath` context manager the
source defines for this purpose also satisfies the discipline — for every
prior `sys.path` and every resolved path list, `__exit__` removes exactly
what `__enter__` added and restores the original list. -/
theorem C5_sys_path_restored :
    (∀ env config secrets sp, (load_driver env config secrets sp).1 = sp) ∧
    (∀ sysPath to_add : List String,
      pluginImportPathExit (pluginImportPathEnter sysPath to_add).1
        (pluginImportPathEnter sysPath to_add).2 = sysPath) := by
  constructor
  · intro env config secrets sp
    rfl
  · intro sp ta
    have h := enterLoop_exit_restores ta.reverse sp [] (by intro a ha; cases ha)
    simpa [pluginImportPathEnter, pluginImportPathExit] using h

/-- Claim C1 (code bug): with every precondition satisfied — parsed dict
manifest, well-formed `module:class` entrypoint, existing module file,
class defined — `load_driver` still does not return the driver: line 281
evaluates the undefined global `PluginVenvPath` and raises `NameError`.
First conjunct: the concrete healthy plugin directory yields that
`NameError`.  Second conjunct: no input whatsoever makes `load_driver`
return normally. -/
theorem C1_load_driver_never_succeeds :
    (load_driver goodEnv [] [] ["host"]).2 = .error (.nameError "PluginVenvPath") ∧
    ∀ env config secrets sp, exceptIsOk (load_driver env config secrets sp).2 = false := by
  refine ⟨rfl, ?_⟩
  intro env config secrets sp
  simp only [load_driver]
  cases hm : load_manifest env with
  | error e => simp [exceptIsOk]
  | ok m =>
    cases hr : resolve_entrypoint m with
    | error e => simp [hr, exceptIsOk]
    | ok pr =>
      by_cases hf : env.fileExists (pr.1 ++ ".py") <;> simp [hr, hf, exceptIsOk]

theorem runAttempts_ret (fn : Attempt → CallResult) (a : Attempt)
    (rest : List Attempt) (err : Option String) (v : JVal) (h : fn a = .ret v) :
    runAttempts fn (a :: rest) err = .printed (pyOr v successResult) := by
  simp [runAttempts, h]

theorem runAttempts_raised (fn : Attempt → CallResult) (a : Attempt)
    (rest : List Attempt) (err : Option String) (m : String) (h : fn a = .raised m) :
    runAttempts fn (a :: rest) err = .actionError m := by
  simp [runAttempts, h]

theorem runAttempts_typeError (fn : Attempt → CallResult) (a : Attempt)
    (rest : List Attempt) (err : Option String) (m : String) (h : fn a = .typeError m) :
    runAttempts fn (a :: rest) err = runAttempts fn rest (some m) := by
  simp [runAttempts, h]

/-- Claim C8 counterexample: an entrypoint with more than one colon does
not make `load_driver` fail with the entrypoint-malformed (`ValueError`)
error.  `"a:b:c".split(":", 1)` yields exactly two parts, `a` and `b:c`, so
resolution succeeds, and a load of such a plugin (no `a.py` present) fails
with the driver-file-missing error instead. -/
theorem C8_claim_counterexample :
    resolve_entrypoint [("driver", JVal.obj [("entrypoint", JVal.str "a:b:c")])] =
      .ok ("a", "b:c") ∧
    (load_driver multiColonEnv [] [] []).2 = .error (.driverFileMissing "a.py") :=
  ⟨rfl, rfl⟩

/-- Claim C8, amended: `load_driver` uses the entrypoint `driver:Driver`
whenever `driver.entrypoint` is unspecified (the `driver` mapping absent,
or the mapping present without `entrypoint`), and the two-name unpacking of
`entry.split(":", 1)` fails — the entrypoint-malformed error — exactly for
entrypoint strings containing no colon at all (a falsy, i.e. empty, string
is replaced by the default first); a string containing one or more colons
is split at its first colon, everything after it (further colons included)
becoming the class-name part. -/
theorem C8_entrypoint_amended :
    (∀ m : List (String × JVal), hasKey m "driver" = false →
      resolve_entrypoint m = .ok ("driver", "Driver")) ∧
    (∀ dfields : List (String × JVal), hasKey dfields "entrypoint" = false →
      resolve_entrypoint [("driver", JVal.obj dfields)] = .ok ("driver", "Driver")) ∧
    (∀ s : String, splitFirstChar ':' s.toList = none → (s == "") = false →
      resolve_entrypoint [("driver", JVal.obj [("entrypoint", JVal.str s)])] =
        .error .entrypointUnpackError) ∧
    (∀ s : String, ∀ pre post : List Char,
      splitFirstChar ':' s.toList = some (pre, post) →
      resolve_entrypoint [("driver", JVal.obj [("entrypoint", JVal.str s)])] =
        .ok (⟨pre⟩, ⟨post⟩)) := by
  have hentry : ∀ s : String, (s == "") = false →
      resolve_entrypoint [("driver", JVal.obj [("entrypoint", JVal.str s)])] =
        entrySplit (JVal.str s) := by
    intro s hne
    have htr : truthy (JVal.str s) = true := by simp [truthy, hne]
    simp only [resolve_entrypoint]
    rw [show pyOr (jGetD [("driver", JVal.obj [("entrypoint", JVal.str s)])]
          "driver" JVal.null) (JVal.obj []) =
        JVal.obj [("entrypoint", JVal.str s)] from rfl]
    simp only [entryOfDriverVal]
    rw [show jGetD [("entrypoint", JVal.str s)] "entrypoint" JVal.null =
        JVal.str s from rfl]
    simp only [pyOr, htr, if_true]
  refine ⟨?_, ?_, ?_, ?_⟩
  · intro m h
    have hj : jGet m "driver" = none := by
      cases hj : jGet m "driver" with
      | none => rfl
      | some v => rw [hasKey, hj] at h; cases h
    simp only [resolve_entrypoint, jGetD, hj]
    rfl
  · intro dfields h
    have hj : jGet dfields "entrypoint" = none := by
      cases hj : jGet dfields "entrypoint" with
      | none => rfl
      | some v => rw [hasKey, hj] at h; cases h
    cases dfields with
    | nil => rfl
    | cons kv rest =>
      simp only [resolve_entrypoint]
      rw [show pyOr (jGetD [("driver", JVal.obj (kv :: rest))] "driver" JVal.null)
            (JVal.obj []) = JVal.obj (kv :: rest) from rfl]
      simp only [entryOfDriverVal, jGetD, hj]
      rfl
  · intro s hsplit hne
    rw [hentry s hne]
    simp only [entrySplit, hsplit]
  · intro s pre post hsplit
    have hne : (s == "") = false := by
      cases hs : s == "" with
      | false => rfl
      | true =>
        exfalso
        rw [eq_of_beq hs] at hsplit
        exact Option.noConfusion
          (show (none : Option (List Char × List Char)) = some (pre, post) from hsplit)
    rw [hentry s hne]
    simp only [entrySplit, hsplit]

theorem C8_entrypoint_amended_witness :
    resolve_entrypoint [] = .ok ("driver", "Driver") ∧
    resolve_entrypoint [("driver", JVal.obj [("entrypoint", JVal.str "abc")])] =
      .error .entrypointUnpackError ∧
    resolve_entrypoint [("driver", JVal.obj [("entrypoint", JVal.str "x:y:z")])] =
      .ok ("x", "y:z") := by
  refine ⟨C8_entrypoint_amended.1 [] (by decide),
    C8_entrypoint_amended.2.2.1 "abc" (by decide) (by decide), ?_⟩
  exact C8_entrypoint_amended.2.2.2 "x:y:z" ['x'] ['y', ':', 'z'] (by decide)

/-- Claim C4: the adapter tries the four calling conventions in the order
keyword-all, positional-all, keyword-without-options,
positional-without-options; it moves on to the next convention exactly when
the call raises `TypeError` (the binding error the source catches), it
surfaces any other exception immediately as the action error without trying
further conventions, and when all four raise `TypeError` it reports the
unsupported-invocation outcome carrying the last binding error.  (The
source distinguishes binding errors from driver errors only by the
exception class `TypeError`, which is exactly how they are modelled.) -/
theorem C4_invocation_order (fn : Attempt → CallResult) :
    (∀ v, fn .kwAll = .ret v →
      do_action_attempts fn = .printed (pyOr v successResult)) ∧
    (∀ m, fn .kwAll = .raised m → do_action_attempts fn = .actionError m) ∧
    (∀ m1 v, fn .kwAll = .typeError m1 → fn .posAll = .ret v →
      do_action_attempts fn = .printed (pyOr v successResult)) ∧
    (∀ m1 m, fn .kwAll = .typeError m1 → fn .posAll = .raised m →
      do_action_attempts fn = .actionError m) ∧
    (∀ m1 m2 v, fn .kwAll = .typeError m1 → fn .posAll = .typeError m2 →
      fn .kwNoOptions = .ret v →
      do_action_attempts fn = .printed (pyOr v successResult)) ∧
    (∀ m1 m2 m, fn .kwAll = .typeError m1 → fn .posAll = .typeError m2 →
      fn .kwNoOptions = .raised m → do_action_attempts fn = .actionError m) ∧
    (∀ m1 m2 m3 v, fn .kwAll = .typeError m1 → fn .posAll = .typeError m2 →
      fn .kwNoOptions = .typeError m3 → fn .posNoOptions = .ret v →
      do_action_attempts fn = .printed (pyOr v successResult)) ∧
    (∀ m1 m2 m3 m, fn .kwAll = .typeError m1 → fn .posAll = .typeError m2 →
      fn .kwNoOptions = .typeError m3 → fn .posNoOptions = .raised m →
      do_action_attempts fn = .actionError m) ∧
    (∀ m1 m2 m3 m4, fn .kwAll = .typeError m1 → fn .posAll = .typeError m2 →
      fn .kwNoOptions = .typeError m3 → fn .posNoOptions = .typeError m4 →
      do_action_attempts fn = .unsupported (some m4)) := by
  refine ⟨?_, ?_, ?_, ?_, ?_, ?_, ?_, ?_, ?_⟩ <;>
    intros <;>
    simp_all [do_action_attempts, attemptOrder, runAttempts]

theorem C4_invocation_order_witness :
    do_action_attempts allTypeErrorFn = .unsupported (some "e4") :=
  (C4_invocation_order allTypeErrorFn).2.2.2.2.2.2.2.2 "e1" "e2" "e3" "e4"
    rfl rfl rfl rfl

/-- Claim C9: whenever a candidate call returns without raising, the value
reported is the driver's return value unless that value is Python-falsy —
`None`, `False`, `0`, the empty string, the empty list or the empty dict —
in which case it is replaced by `\x7b"success": true\x7d`; in particular a
driver returning an empty dict has its actual result discarded. -/
theorem C9_falsy_result_replaced (fn : Attempt → CallResult) (a : Attempt)
    (rest : List Attempt) (err : Option String) (v : JVal) (h : fn a = .ret v) :
    runAttempts fn (a :: rest) err =
      .printed (if truthy v then v else successResult) ∧
    truthy JVal.null = false ∧ truthy (JVal.bool false) = false ∧
    truthy (JVal.num 0) = false ∧ truthy (JVal.str "") = false ∧
    truthy (JVal.arr []) = false ∧ truthy (JVal.obj []) = false ∧
    (v = JVal.obj [] → runAttempts fn (a :: rest) err = .printed successResult) := by
  refine ⟨by simp [runAttempts, h, pyOr], by decide, by decide, by decide,
    by decide, by decide, by decide, ?_⟩
  rintro rfl
  simp [runAttempts, h, pyOr, truthy]

theorem C9_falsy_result_replaced_witness :
    do_action_attempts emptyDictFn = .printed successResult :=
  (C9_falsy_result_replaced emptyDictFn .kwAll
      [.posAll, .kwNoOptions, .posNoOptions] none (.obj []) rfl).2.2.2.2.2.2.2 rfl

theorem conformanceErrors_eq (methods : List String) :
    ∀ caps : List JVal, (∀ c ∈ caps, capOk c = true) →
      conformanceErrors caps methods =
        .ok ((caps.filter
            (fun c => !(methods.contains (cap_method (capIdOf c))))).map
          missingMethodMsg) := by
  intro caps
  induction caps with
  | nil => intro _; rfl
  | cons c rest ih =>
    intro h
    have hc : capOk c = true := h c (List.mem_cons_self c rest)
    have hr := ih (fun x hx => h x (List.mem_cons_of_mem c hx))
    cases c with
    | obj cfields =>
      cases hid : jGetD cfields "id" (.str "") with
      | str s =>
        have hcap : capIdOf (.obj cfields) = s := by simp [capIdOf, hid]
        by_cases hm : cap_method s ∈ methods
        · have hmc : methods.contains (cap_method s) = true := by simpa using hm
          simp [conformanceErrors, hid, hr, hm, hmc, List.filter_cons, hcap]
        · have hmc : methods.contains (cap_method s) = false := by simpa using hm
          simp [conformanceErrors, hid, hr, hm, hmc, List.filter_cons, hcap,
            missingMethodMsg]
      | null => simp [capOk, hid] at hc
      | bool b => simp [capOk, hid] at hc
      | num n => simp [capOk, hid] at hc
      | arr xs => simp [capOk, hid] at hc
      | obj fs => simp [capOk, hid] at hc
    | null => simp [capOk] at hc
    | bool b => simp [capOk] at hc
    | num n => simp [capOk] at hc
    | str s => simp [capOk] at hc
    | arr xs => simp [capOk] at hc

/-- Claim C7: on every capability list the source runs on without raising
(each element a mapping whose id, defaulting to the empty string, is a
string) and every method-name set, the conformance check succeeds;
`conformant` is true exactly when every capability id, with dot segments
joined by underscores, names an exposed method; and the error list has
exactly one entry per capability whose expected method is absent, the
entry's message spelling out both the expected method name and the
capability id (so capability id `a.b` expects method `a_b`).  Determinism,
absence of I/O and non-mutation of the inputs hold by construction of this
pure embedding, which is faithful to the source: the loop only reads its
arguments. -/
theorem C7_conformance_characterization (caps : List JVal) (methods : List String)
    (h : ∀ c ∈ caps, capOk c = true) :
    ∃ r, validate_capability_conformance caps methods = .ok r ∧
      (r.conformant = true ↔
        ∀ c ∈ caps, methods.contains (cap_method (capIdOf c)) = true) ∧
      r.errors = (caps.filter
          (fun c => !(methods.contains (cap_method (capIdOf c))))).map
        missingMethodMsg := by
  have he := conformanceErrors_eq methods caps h
  refine ⟨⟨((caps.filter
        (fun c => !(methods.contains (cap_method (capIdOf c))))).map
      missingMethodMsg).length == 0,
    (caps.filter
        (fun c => !(methods.contains (cap_method (capIdOf c))))).map
      missingMethodMsg⟩, ?_, ?_, rfl⟩
  · simp [validate_capability_conformance, he]
  · constructor
    · intro hcf c hcmem
      by_contra hnc
      simp only [Bool.not_eq_true] at hnc
      have hmemf : c ∈ caps.filter
          (fun x => !(methods.contains (cap_method (capIdOf x)))) :=
        List.mem_filter.mpr ⟨hcmem, by simpa using hnc⟩
      have hnil : (caps.filter
          (fun x => !(methods.contains (cap_method (capIdOf x))))).map
            missingMethodMsg = [] := by
        have hl : ((caps.filter
            (fun x => !(methods.contains (cap_method (capIdOf x))))).map
              missingMethodMsg).length = 0 := by simpa using hcf
        exact List.length_eq_zero.mp hl
      rw [List.map_eq_nil_iff.mp hnil] at hmemf
      cases hmemf
    · intro hall
      have hfil : caps.filter
          (fun x => !(methods.contains (cap_method (capIdOf x)))) = [] := by
        rw [List.filter_eq_nil_iff]
        intro c hcmem
        simpa using hall c hcmem
      rw [hfil]
      rfl

theorem C7_conformance_characterization_witness :
    ∃ r, validate_capability_conformance [capAB] [] = .ok r ∧
      r.conformant = false ∧
      r.errors = ["Driver missing method 'a_b' for capability 'a.b'"] := by
  obtain ⟨r, hr, hiff, herr⟩ :=
    C7_conformance_characterization [capAB] [] (by decide)
  refine ⟨r, hr, ?_, by rw [herr]; rfl⟩
  cases hc : r.conformant
  · rfl
  · exfalso
    have hall := hiff.mp hc
    exact absurd (hall capAB (List.mem_cons_self _ _)) (by decide)

/-- Claim C3 counterexample: the empty manifest mapping is missing every
required top-level field (`id` among them), and the validator does report
`valid = false`, but no reported error has a path naming the missing field:
every error path is the empty string (the `required` violations are
attached to the top-level object itself). -/
theorem C3_claim_counterexample :
    (validate_plugin_manifest true mpAny (.obj [])).valid = false ∧
    hasKey [] "id" = false ∧ "id" ∈ REQUIRED_FIELDS ∧
    (validate_plugin_manifest true mpAny (.obj [])).errors.map FormattedError.path =
      ["", "", "", "", "", "", "", ""] ∧
    (((validate_plugin_manifest true mpAny (.obj [])).errors.map
        FormattedError.path).contains "id") = false := by
  refine ⟨rfl, rfl, by decide, rfl, by rfl⟩

/-- Claim C3, amended: for every manifest mapping missing one of the (in
fact eight) required top-level fields, `validate_plugin_manifest` returns
`valid = false`, and the errors list contains at least one entry whose
message names the missing field — `'<field>' is a required property` —
while that entry's path is the empty string, the violation being attached
to the top-level object rather than to the missing field. -/
theorem C3_missing_required_amended (mp : String → String → Bool)
    (fields : List (String × JVal)) (k : String)
    (hk : k ∈ REQUIRED_FIELDS) (hmiss : hasKey fields k = false) :
    (validate_plugin_manifest true mp (.obj fields)).valid = false ∧
    ∃ e ∈ (validate_plugin_manifest true mp (.obj fields)).errors,
      e.path = "" ∧ e.message = "'" ++ k ++ "' is a required property" := by
  have hmem : (⟨[], "'" ++ k ++ "' is a required property", JVal.obj fields⟩ : SchemaError)
      ∈ iter_errors mp (.obj fields) := by
    have hreq : (⟨[], "'" ++ k ++ "' is a required property", JVal.obj fields⟩ : SchemaError)
        ∈ requiredErrorsFor REQUIRED_FIELDS (.obj fields) := by
      simp only [requiredErrorsFor]
      exact List.mem_filterMap.mpr ⟨k, hk, by simp [hmiss]⟩
    simp only [iter_errors]
    exact List.mem_append.mpr (Or.inl (List.mem_append.mpr (Or.inl
      (List.mem_append.mpr (Or.inr hreq)))))
  have hne : (iter_errors mp (.obj fields)).isEmpty = false := by
    cases hE : iter_errors mp (.obj fields) with
    | nil => rw [hE] at hmem; cases hmem
    | cons x xs => rfl
  have hval : validate_plugin_manifest true mp (.obj fields) =
      ⟨false, (iter_errors mp (.obj fields)).map
        (fun e => ⟨joinSep "." e.path, e.message, e.value⟩)⟩ := by
    simp [validate_plugin_manifest, hne]
  rw [hval]
  exact ⟨rfl, ⟨"", "'" ++ k ++ "' is a required property", JVal.obj fields⟩,
    List.mem_map_of_mem _ hmem, rfl, rfl⟩

theorem C3_missing_required_amended_witness :
    (validate_plugin_manifest true mpAny (.obj [])).valid = false ∧
    ∃ e ∈ (validate_plugin_manifest true mpAny (.obj [])).errors,
      e.path = "" ∧ e.message = "'id' is a required property" :=
  C3_missing_required_amended mpAny [] "id" (by decide) (by decide)

/-- Claim C6: whenever the `jsonschema` import fails,
`validate_plugin_manifest` returns `valid = false` together with exactly
one synthetic error announcing that validation is unavailable; no input is
ever reported valid in that situation. -/
theorem C6_validation_unavailable (mp : String → String → Bool) (m : JVal) :
    validate_plugin_manifest false mp m =
      ⟨false,
       [⟨"", "Schema validation unavailable. Install 'jsonschema' to enable manifest checks.",
         JVal.null⟩]⟩ ∧
    (validate_plugin_manifest false mp m).valid = false :=
  ⟨rfl, rfl⟩





theorem dedupLoop_idem_append (y : List (List String)) :
    ∀ (x : List (List String)) (seen : List String),
      dedupLoop seen (dedupLoop seen x ++ y) = dedupLoop seen (x ++ y) := by
  intro x
  induction x with
  | nil => intro seen; rfl
  | cons p rest ih =>
    intro seen
    by_cases hp : pathStr p ∈ seen
    · simp only [dedupLoop, if_pos hp, List.cons_append]
      exact ih seen
    · simp only [dedupLoop, if_neg hp, List.cons_append]
      rw [ih]
      rfl

theorem dedupLoop_map_nodup :
    ∀ (ps : List (List String)) (seen : List String),
      ((dedupLoop seen ps).map pathStr).Nodup ∧
      ∀ s ∈ (dedupLoop seen ps).map pathStr, s ∉ seen := by
  intro ps
  induction ps with
  | nil =>
    intro seen
    exact ⟨List.nodup_nil, by intro s hs; cases hs⟩
  | cons p rest ih =>
    intro seen
    by_cases hp : pathStr p ∈ seen
    · simpa [dedupLoop, hp] using ih seen
    · obtain ⟨h1, h2⟩ := ih (pathStr p :: seen)
      constructor
      · simp only [dedupLoop, if_neg hp, List.map_cons]
        refine List.nodup_cons.mpr ⟨?_, h1⟩
        intro hmem
        exact (h2 _ hmem) (List.mem_cons_self _ _)
      · intro s hs
        simp only [dedupLoop, if_neg hp, List.map_cons] at hs
        rcases List.mem_cons.mp hs with rfl | hs2
        · exact hp
        · intro hseen
          exact (h2 s hs2) (List.mem_cons_of_mem _ hseen)

theorem append_ite_singleton {α : Type} (c : Prop) [Decidable c]
    (A : List α) (v : α) :
    (if c then A ++ [v] else A) = A ++ (if c then [v] else []) := by
  by_cases hc : c <;> simp [hc]

theorem candidate_site_packages_ok (fs : FS) (venv : List String)
    (hlib : fs.pathExists (venv ++ ["lib"]) = true →
      fs.isDir (venv ++ ["lib"]) = true)
    (hlib64 : fs.pathExists (venv ++ ["lib64"]) = true →
      fs.isDir (venv ++ ["lib64"]) = true) :
    _candidate_site_packages fs venv = .ok (dedupLoop []
      ((if fs.pathExists (venv ++ ["lib"]) then
          pythonSPCands fs (venv ++ ["lib"]) (fs.children (venv ++ ["lib"])) ++
            (if fs.pathExists (venv ++ ["lib64"]) then
              pythonSPCands fs (venv ++ ["lib64"]) (fs.children (venv ++ ["lib64"]))
            else [])
        else []) ++
       (if fs.pathExists (venv ++ ["Lib", "site-packages"]) then
         [venv ++ ["Lib", "site-packages"]]
       else []))) := by
  by_cases hl : fs.pathExists (venv ++ ["lib"]) = true
  · have hld : fs.isDir (venv ++ ["lib"]) = true := hlib hl
    by_cases h64 : fs.pathExists (venv ++ ["lib64"]) = true
    · have h64d : fs.isDir (venv ++ ["lib64"]) = true := hlib64 h64
      by_cases hw : fs.pathExists (venv ++ ["Lib", "site-packages"]) = true <;>
        simp [_candidate_site_packages, iterdir, hl, hld, h64, h64d, hw,
          List.append_assoc]
    · by_cases hw : fs.pathExists (venv ++ ["Lib", "site-packages"]) = true <;>
        simp [_candidate_site_packages, iterdir, hl, hld, h64, hw]
  · by_cases hw : fs.pathExists (venv ++ ["Lib", "site-packages"]) = true <;>
      simp [_candidate_site_packages, iterdir, hl, hw]

/-- Claim C2 counterexample.  First part: in a plugin directory whose
`.venv` exists (and is a directory, yielding a site-packages candidate) and
which also has a `_vendor` directory, the resolver still appends `_vendor`
after the isolated-environment candidates — the vendor directories are not
a fallback used only when the environment is absent.  Second part: the
resolver can raise — when `.venv/lib` exists but is a regular file,
`iterdir` raises `NotADirectoryError`. -/
theorem C2_claim_counterexample :
    (fsVenvAndVendor.pathExists ["p", ".venv"] = true ∧
     fsVenvAndVendor.isDir ["p", ".venv"] = true ∧
     get_plugin_site_packages fsVenvAndVendor ["p"] =
       .ok [["p", ".venv", "lib", "python3.11", "site-packages"], ["p", "_vendor"]]) ∧
    get_plugin_site_packages fsLibIsFile ["p"] = .error .notADirectoryError :=
  ⟨⟨rfl, rfl, rfl⟩, rfl⟩

/-- Claim C2, amended: provided each of `.venv/lib` and `.venv/lib64` is a
directory whenever it exists (otherwise the source raises
`NotADirectoryError`), resolution returns, in order: the
interpreter-version-named site-packages candidates of the isolated
environment when `.venv` exists and is a directory (from `lib`, then
`lib64` — which the source only examines when `lib` exists — then the
Windows-style `Lib/site-packages`), followed by the `_vendor` and then
`vendor` directories whenever each exists and is a directory — regardless
of whether the isolated environment is present; the output is
de-duplicated on the rendered path, preserving first-seen order, so the
returned rendered paths are pairwise distinct.  A missing dependency
directory contributes no paths. -/
theorem C2_resolution_amended (fs : FS) (d : List String)
    (hlib : fs.pathExists (d ++ [".venv"] ++ ["lib"]) = true →
      fs.isDir (d ++ [".venv"] ++ ["lib"]) = true)
    (hlib64 : fs.pathExists (d ++ [".venv"] ++ ["lib64"]) = true →
      fs.isDir (d ++ [".venv"] ++ ["lib64"]) = true) :
    get_plugin_site_packages fs d =
      .ok (dedupLoop [] (venv_candidates_spec fs d ++ vendor_dirs_spec fs d)) ∧
    ∀ l, get_plugin_site_packages fs d = .ok l → (l.map pathStr).Nodup := by
  have hmain : get_plugin_site_packages fs d =
      .ok (dedupLoop [] (venv_candidates_spec fs d ++ vendor_dirs_spec fs d)) := by
    by_cases hv : (fs.pathExists (d ++ [".venv"]) && fs.isDir (d ++ [".venv"])) = true
    · have hcand := candidate_site_packages_ok fs (d ++ [".venv"]) hlib hlib64
      simp only [get_plugin_site_packages, hv, if_true, hcand,
        venv_candidates_spec, vendor_dirs_spec]
      rw [append_ite_singleton, append_ite_singleton, List.append_assoc,
        dedupLoop_idem_append]
    · simp only [Bool.not_eq_true] at hv
      simp only [get_plugin_site_packages, venv_candidates_spec,
        vendor_dirs_spec, hv, Bool.false_eq_true, if_false]
      by_cases h1 :
          (fs.pathExists (d ++ ["_vendor"]) && fs.isDir (d ++ ["_vendor"])) = true <;>
        by_cases h2 :
          (fs.pathExists (d ++ ["vendor"]) && fs.isDir (d ++ ["vendor"])) = true <;>
        simp [h1, h2]
  refine ⟨hmain, ?_⟩
  intro l hl
  rw [hmain] at hl
  injection hl with h
  rw [← h]
  exact (dedupLoop_map_nodup _ []).1

theorem C2_resolution_amended_witness :
    get_plugin_site_packages fsVenvAndVendor ["p"] =
      .ok (dedupLoop [] (venv_candidates_spec fsVenvAndVendor ["p"] ++
        vendor_dirs_spec fsVenvAndVendor ["p"])) ∧
    (([["p", ".venv", "lib", "python3.11", "site-packages"],
        ["p", "_vendor"]].map pathStr).Nodup) := by
  have h := C2_resolution_amended fsVenvAndVendor ["p"] (by decide) (by decide)
  exact ⟨h.1, h.2 _ (by rfl)⟩

theorem filterMapCongr {α β : Type} (f g : α → Option β) :
    ∀ l : List α, (∀ a ∈ l, f a = g a) → l.filterMap f = l.filterMap g := by
  intro l
  induction l with
  | nil => intro _; rfl
  | cons a as ih =>
    intro h
    rw [List.filterMap_cons, List.filterMap_cons,
      h a (List.mem_cons_self a as), ih (fun x hx => h x (List.mem_cons_of_mem a hx))]

theorem prefix_extend {d base : List String} (h : d <+: base) (l : List String) :
    d <+: base ++ l := by
  rcases h with ⟨t, rfl⟩
  exact ⟨t ++ l, by simp⟩

theorem pythonSPCands_congr (fs1 fs2 : FS) (d base : List String)
    (h : fsAgreeUnder d fs1 fs2) (hp : d <+: base) (names : List String) :
    pythonSPCands fs1 base names = pythonSPCands fs2 base names := by
  unfold pythonSPCands
  apply filterMapCongr
  intro n _
  obtain ⟨_, hd1, _⟩ := h (base ++ [n]) (prefix_extend hp _)
  obtain ⟨he2, _, _⟩ := h (base ++ [n, "site-packages"]) (prefix_extend hp _)
  rw [hd1, he2]

theorem candidate_site_packages_congr (fs1 fs2 : FS) (d venv : List String)
    (h : fsAgreeUnder d fs1 fs2) (hp : d <+: venv) :
    _candidate_site_packages fs1 venv = _candidate_site_packages fs2 venv := by
  obtain ⟨heL, hdL, hcL⟩ := h (venv ++ ["lib"]) (prefix_extend hp _)
  obtain ⟨he64, hd64, hc64⟩ := h (venv ++ ["lib64"]) (prefix_extend hp _)
  obtain ⟨heW, _, _⟩ := h (venv ++ ["Lib", "site-packages"]) (prefix_extend hp _)
  have hcands1 := pythonSPCands_congr fs1 fs2 d (venv ++ ["lib"]) h
    (prefix_extend hp _)
  have hcands2 := pythonSPCands_congr fs1 fs2 d (venv ++ ["lib64"]) h
    (prefix_extend hp _)
  simp only [_candidate_site_packages, iterdir, heL, hdL, hcL, he64, hd64,
    hc64, heW, hcands1, hcands2]

/-- Claim C10: dependency-path resolution is deterministic in the observed
directory contents — two filesystem states that agree on everything under
the plugin directory (the directory unchanged between two calls) yield
identical resolver results, same paths in the same order (including the
raising case). -/
theorem C10_resolution_deterministic (fs1 fs2 : FS) (d : List String)
    (h : fsAgreeUnder d fs1 fs2) :
    get_plugin_site_packages fs1 d = get_plugin_site_packages fs2 d := by
  obtain ⟨heV, hdV, _⟩ := h (d ++ [".venv"]) ⟨[".venv"], rfl⟩
  obtain ⟨heVen, hdVen, _⟩ := h (d ++ ["_vendor"]) ⟨["_vendor"], rfl⟩
  obtain ⟨heVen2, hdVen2, _⟩ := h (d ++ ["vendor"]) ⟨["vendor"], rfl⟩
  have hc := candidate_site_packages_congr fs1 fs2 d (d ++ [".venv"]) h
    ⟨[".venv"], rfl⟩
  simp only [get_plugin_site_packages, heV, hdV, heVen, hdVen, heVen2,
    hdVen2, hc]

theorem C10_resolution_deterministic_witness :
    get_plugin_site_packages fsVenvAndVendor ["p"] =
      get_plugin_site_packages fsVenvAndVendorNoise ["p"] := by
  apply C10_resolution_deterministic
  intro p hp
  have hne : p ≠ ["q", "extra"] := by
    rcases hp with ⟨t, rfl⟩
    intro hcon
    rw [show ["p"] ++ t = "p" :: t from rfl] at hcon
    injection hcon with h1 _
    exact absurd h1 (by decide)
  refine ⟨?_, rfl, rfl⟩
  show fsVenvAndVendor.pathExists p =
    (if p = ["q", "extra"] then true else fsVenvAndVendor.pathExists p)
  rw [if_neg hne]
